import Mathlib

/-!
Shallow embedding of `migrate_volumes.py` (ACS storage-migration tool):
the volume-record normalizer (`collect_volumes` / `printout_volumes`),
the worklist builder (`printout_volumes`), the worklist player
(`do_migrate`), the job monitor (`migration_status`) and the module
toplevel argument checks, together with theorems settling the spec
claims about them.
-/

namespace AcsMigrate

/-- A raw volume entry as returned by the inventory client
(`CS.listVolumes`).  The platform contract guarantees `id`, `domain`,
`name`, `state` and `size`; `vmname`, `vmstate`, `project` and
`storage` may be absent. -/
structure RawVolume where
  id : String
  domain : String
  name : String
  state : String
  size : String
  vmname : Option String
  vmstate : Option String
  project : Option String
  storage : Option String
deriving DecidableEq

/-- A volume dict after `collect_volumes` (lines 132-140 of
`migrate_volumes.py`): `vmname`, `vmstate` and `project` have been
defaulted to `"n.a."` when missing, `storage` has not been touched. -/
structure CollectedVolume where
  id : String
  domain : String
  name : String
  state : String
  size : String
  vmname : String
  vmstate : String
  project : String
  storage : Option String
deriving DecidableEq

/-- A fully populated nine-field volume record: the shape of a
serialized worklist row and of the `fields_dict` built by
`do_migrate` (lines 219-228). -/
structure Volume where
  id : String
  domain : String
  project : String
  vmname : String
  vmstate : String
  name : String
  state : String
  storage : String
  size : String
deriving DecidableEq

/-- `collect_volumes`, lines 132-140: default `vmname`, `vmstate` and
`project` to `"n.a."` when the key is missing. -/
def collectVolume (v : RawVolume) : CollectedVolume :=
  { id := v.id, domain := v.domain, name := v.name, state := v.state,
    size := v.size,
    vmname := v.vmname.getD "n.a.",
    vmstate := v.vmstate.getD "n.a.",
    project := v.project.getD "n.a.",
    storage := v.storage }

/-- The per-row field extraction of `printout_volumes`, lines 152-172:
re-checks `vmname`, `vmstate`, `project` (already present after
`collect_volumes`) and defaults a missing `storage` to `"n.a."`. -/
def printoutRecord (c : CollectedVolume) : Volume :=
  { id := c.id, domain := c.domain, project := c.project,
    vmname := c.vmname, vmstate := c.vmstate, name := c.name,
    state := c.state, storage := c.storage.getD "n.a.", size := c.size }

/-- The full normalization path from a raw inventory entry to the
emitted nine-field record: `collect_volumes` followed by the row
extraction in `printout_volumes`. -/
def normalizeVolume (r : RawVolume) : Volume :=
  printoutRecord (collectVolume r)

/-- Boolean lexicographic order on lists of strings, the order Python
uses to compare the sort-key tuples passed to `sorted`. -/
def lexLE : List String → List String → Bool
  | [], _ => true
  | _ :: _, [] => false
  | a :: as, b :: bs =>
    if a < b then true
    else if a = b then lexLE as bs
    else false

/-- The sort key of `printout_volumes`, lines 149-151:
`(domain.lower(), project.lower(), vmname.lower(), name.lower())`. -/
def sortKey (c : CollectedVolume) : List String :=
  [c.domain.toLower, c.project.toLower, c.vmname.toLower, c.name.toLower]

/-- The comparison under which `sorted(overall_volumes, key=...)`
orders the collection. -/
def keyLE (a b : CollectedVolume) : Bool :=
  lexLE (sortKey a) (sortKey b)

/-- Sort key re-read off an emitted nine-field record. -/
def volKey (v : Volume) : List String :=
  [v.domain.toLower, v.project.toLower, v.vmname.toLower, v.name.toLower]

/-- Row filter of `printout_volumes`, lines 178-179:
`if ARGS.prep_sr and ARGS.prep_sr != volume_storage: continue`.
A row is kept unless `prep_sr` is truthy (given and non-empty) and
differs from the row's storage. -/
def keepRow (prepSr : Option String) (v : Volume) : Bool :=
  match prepSr with
  | none => true
  | some s => !(s != "" && s != v.storage)

/-- Header line written by `printout_volumes`, lines 146-147. -/
def headerLine : String :=
  "id;domain;project;vmname;vmstate;name;state;storage;size\n"

/-- Serialization of one record, `printout_volumes` lines 181-184. -/
def serializeVolume (v : Volume) : String :=
  v.id ++ ";" ++ v.domain ++ ";" ++ v.project ++ ";" ++ v.vmname ++ ";" ++
    v.vmstate ++ ";" ++ v.name ++ ";" ++ v.state ++ ";" ++ v.storage ++
    ";" ++ v.size ++ "\n"

/-- The sequence of nine-field records whose serializations
`printout_volumes` emits after the header: the collection is sorted,
each element turned into a full record, and rows are dropped by the
`prep_sr` filter at serialization time only. -/
def emittedVolumes (prepSr : Option String) (vols : List CollectedVolume) :
    List Volume :=
  ((vols.mergeSort keyLE).map printoutRecord).filter (keepRow prepSr)

/-- All lines written by `printout_volumes`: the header followed by one
serialized line per kept record. -/
def printoutVolumes (prepSr : Option String) (vols : List CollectedVolume) :
    List String :=
  headerLine :: (emittedVolumes prepSr vols).map serializeVolume

/-! ### Worklist player: row parsing (`do_migrate`, lines 216-231) -/

/-- Splitting a character list at every semicolon: the semantics of
Python's `line.split(";")`. -/
def splitOnSemi : List Char → List (List Char)
  | [] => [[]]
  | c :: cs =>
    let r := splitOnSemi cs
    if c = ';' then [] :: r
    else (c :: r.headD []) :: r.tail

/-- `line.split(";")` on a string. -/
def splitSemiStr (s : String) : List String :=
  (splitOnSemi s.data).map (fun l => String.mk l)

/-- Indexing `fields[i]`: out-of-range indexing raises. -/
def getField (fs : List String) (i : Nat) : Except String String :=
  match fs.get? i with
  | some s => Except.ok s
  | none => Except.error "list index out of range"

/-- Lines 218-231 of `do_migrate`: all nine fields are indexed
unconditionally into `fields_dict`, and only then is the first field
compared with the literal `"id"` to skip header lines. -/
def parseFields (fs : List String) : Except String (Option Volume) :=
  match getField fs 0 with
  | Except.error e => Except.error e
  | Except.ok f0 =>
  match getField fs 1 with
  | Except.error e => Except.error e
  | Except.ok f1 =>
  match getField fs 2 with
  | Except.error e => Except.error e
  | Except.ok f2 =>
  match getField fs 3 with
  | Except.error e => Except.error e
  | Except.ok f3 =>
  match getField fs 4 with
  | Except.error e => Except.error e
  | Except.ok f4 =>
  match getField fs 5 with
  | Except.error e => Except.error e
  | Except.ok f5 =>
  match getField fs 6 with
  | Except.error e => Except.error e
  | Except.ok f6 =>
  match getField fs 7 with
  | Except.error e => Except.error e
  | Except.ok f7 =>
  match getField fs 8 with
  | Except.error e => Except.error e
  | Except.ok f8 =>
  if f0 == "id" then Except.ok none
  else Except.ok (some { id := f0, domain := f1, project := f2,
                         vmname := f3, vmstate := f4, name := f5,
                         state := f6, storage := f7, size := f8 })

/-- The player's per-line parser: split on semicolons, index the nine
fields, skip the row when the first field is the literal `"id"`. -/
def parseWorklistLine (line : String) : Except String (Option Volume) :=
  parseFields (splitSemiStr line)

/-- The ordered sequence of data rows the player obtains from a
worklist file, processing lines in order; a parse failure aborts. -/
def parsedRows : List String → Except String (List Volume)
  | [] => Except.ok []
  | l :: ls =>
    match parseWorklistLine l with
    | Except.error e => Except.error e
    | Except.ok none => parsedRows ls
    | Except.ok (some v) =>
      match parsedRows ls with
      | Except.error e => Except.error e
      | Except.ok rest => Except.ok (v :: rest)

/-- The nine-field record read off a field list by position. -/
def volumeFromFields (fs : List String) : Volume :=
  { id := fs.getD 0 "", domain := fs.getD 1 "", project := fs.getD 2 "",
    vmname := fs.getD 3 "", vmstate := fs.getD 4 "", name := fs.getD 5 "",
    state := fs.getD 6 "", storage := fs.getD 7 "", size := fs.getD 8 "" }

/-- The worklist file as a list of lines, as the builder writes it:
header first, then one serialized line per record. -/
def serializeWorklist (vols : List Volume) : List String :=
  headerLine :: vols.map serializeVolume

/-- The nine fields of a record in serialization order. -/
def fieldsOf (v : Volume) : List String :=
  [v.id, v.domain, v.project, v.vmname, v.vmstate, v.name, v.state,
   v.storage, v.size]

/-! ### Worklist player: migration submission (`do_migrate`, lines 243-289) -/

/-- Observable side effects of one player run: migration submissions
(`CS.migrateVolume`), receipt-file writes (`open(filename, "w")`
followed by a single `write`), and skip messages. -/
inductive Event where
  | migrateVolume (volumeid : String) (storageid : String) (livemigrate : Bool)
  | writeFile (filename : String) (content : String)
  | skipped (vmname : String) (name : String)
deriving DecidableEq

/-- Environment of one worklist row: the re-fetched volume
(`CS.listVolumes(id=...)[0]`), the operator's eventual yes/no answer,
the job id the platform returns, and the two UTC timestamps taken by
the two `time.strftime` calls (filename, line 276, and receipt line,
line 281). -/
structure RowAction where
  fetched : Volume
  answerYes : Bool
  jobid : String
  fileTime : String
  lineTime : String
deriving DecidableEq

/-- Lines 243-248: migration mode from the freshly fetched `vmstate`;
any state other than `"Running"` or `"Stopped"` raises. -/
def migrateModeOf (vmstate : String) : Except String String :=
  if vmstate == "Running" then Except.ok "live"
  else if vmstate == "Stopped" then Except.ok "offline"
  else Except.error "Unexpected VMState!"

/-- Processing of one data row (lines 243-289): determine the mode,
then on "yes" submit the migration (live flag iff mode is live) and
write one receipt file named with the run prefix plus the timestamp
taken at that moment, containing `volume_id;job_id;timestamp`; on
"no" print a skip message. -/
def processRow (pfx dst : String) (row : Volume) (act : RowAction) :
    Except String (List Event) :=
  match migrateModeOf act.fetched.vmstate with
  | Except.error e => Except.error e
  | Except.ok mode =>
    if act.answerYes then
      Except.ok [Event.migrateVolume row.id dst (mode == "live"),
        Event.writeFile (pfx ++ act.fileTime)
          (row.id ++ ";" ++ act.jobid ++ ";" ++ act.lineTime)]
    else
      Except.ok [Event.skipped row.vmname row.name]

/-- A player run over already-parsed data rows with their
environments: rows are processed strictly sequentially; a raise
aborts the run, keeping the error and producing no further events. -/
def doMigrateRun (pfx dst : String) :
    List (Volume × RowAction) → List Event × Option String
  | [] => ([], none)
  | (row, act) :: rest =>
    match processRow pfx dst row act with
    | Except.error e => ([], some e)
    | Except.ok evs =>
      let r := doMigrateRun pfx dst rest
      (evs ++ r.1, r.2)

/-- The events one row contributes when its fetched vmstate is valid. -/
def rowEvents (pfx dst : String) (p : Volume × RowAction) : List Event :=
  if p.2.answerYes then
    [Event.migrateVolume p.1.id dst (p.2.fetched.vmstate == "Running"),
     Event.writeFile (pfx ++ p.2.fileTime)
       (p.1.id ++ ";" ++ p.2.jobid ++ ";" ++ p.2.lineTime)]
  else
    [Event.skipped p.1.vmname p.1.name]

/-- The receipt files a list of events writes, in order. -/
def writeTargets (evs : List Event) : List String :=
  evs.filterMap (fun e =>
    match e with
    | Event.writeFile n _ => some n
    | _ => none)

/-! ### Module toplevel (lines 370-413) -/

/-- The command-line arguments relevant to the toplevel checks. -/
structure Args where
  prepareMigratelist : Bool
  doMigrate : Bool
  interactive : Bool
  nonInteractive : Bool
  monitorMigrations : Bool
  prepSr : Option String
  prepProj : Option String
  outputList : Option String
  inputList : Option String
  destStorage : Option String
deriving DecidableEq

/-- Python truthiness of an optional string argument: absent and empty
strings are falsy. -/
def truthy : Option String → Bool
  | none => false
  | some s => s != ""

/-- Observable toplevel events: a remote `listStoragePools` call (made
by `get_storageid`), a raised rejection, and the dispatch of the three
operations. -/
inductive TopEvent where
  | remoteListStoragePools
  | reject (msg : String)
  | runPrepare
  | runMonitor
  | runMigrate
deriving DecidableEq

/-- `get_storageid` (lines 357-366): scan the pool listing, the last
name match wins, empty string when no pool matches. -/
def getStorageId (pools : List (String × String)) (name : String) : String :=
  pools.foldl (fun acc p => if p.1 == name then p.2 else acc) ""

/-- Operation dispatch (lines 399-411): the three operations run in
sequence when selected; `--do-migrate` resolves the destination
storage again through a remote call. -/
def stageDispatch (args : Args) : List TopEvent :=
  (if args.prepareMigratelist then [TopEvent.runPrepare] else []) ++
  (if args.monitorMigrations then [TopEvent.runMonitor] else []) ++
  (if args.doMigrate then
    [TopEvent.remoteListStoragePools, TopEvent.runMigrate] else [])

/-- Flag-combination checks, lines 385-397, in source order. -/
def stageChecks (args : Args) : List TopEvent :=
  if args.prepareMigratelist && args.doMigrate then
    [TopEvent.reject "--prepare_migrate and --do-migrate cannot be used together."]
  else if args.interactive && args.nonInteractive then
    [TopEvent.reject "--interactive and --non-interactive cannot be used together."]
  else if args.doMigrate && !(truthy args.inputList) then
    [TopEvent.reject "Please enter --input-list with --do-migrate."]
  else if args.doMigrate && !(truthy args.destStorage) then
    [TopEvent.reject "Please enter --dest-storage with --do-migrate."]
  else stageDispatch args

/-- Validation of `--prep-sr` (lines 379-383): when truthy, a remote
`listStoragePools` call is made before the flag checks, and an unknown
name raises. -/
def stagePrepSr (pools : List (String × String)) (args : Args) :
    List TopEvent :=
  if truthy args.prepSr then
    TopEvent.remoteListStoragePools ::
      (if getStorageId pools (args.prepSr.getD "") == "" then
        [TopEvent.reject "The storage does not exist"]
      else stageChecks args)
  else stageChecks args

/-- The toplevel event trace (lines 370-413): `--dest-storage`
validation first (lines 373-377), then `--prep-sr` validation, then
the flag-combination checks, then dispatch. -/
def toplevelTrace (pools : List (String × String)) (args : Args) :
    List TopEvent :=
  if truthy args.destStorage then
    TopEvent.remoteListStoragePools ::
      (if getStorageId pools (args.destStorage.getD "") == "" then
        [TopEvent.reject "The storage does not exist"]
      else stagePrepSr pools args)
  else stagePrepSr pools args

/-- Is a toplevel event a rejection? -/
def isReject : TopEvent → Bool
  | TopEvent.reject _ => true
  | _ => false

/-- The mutually exclusive or incomplete flag combinations named by
the spec: build and play together, play without a destination
storage, play without an input list. -/
def badCombo (args : Args) : Bool :=
  (args.prepareMigratelist && args.doMigrate) ||
  (args.doMigrate && !(truthy args.destStorage)) ||
  (args.doMigrate && !(truthy args.inputList))

/-! ### Job monitor (`migration_status`, lines 302-354) -/

/-- One row of the monitor's status table. -/
structure StatusRow where
  vmname : String
  vmstate : String
  name : String
  size : String
  volumeState : String
  storage : String
  volumeid : String
  started : String
  jobStatus : Nat
  jobResultcode : Nat
deriving DecidableEq

/-- Lines 329-338: the status row of one receipt line, built from the
re-fetched volume record and the async job's status/result code. -/
def mkStatusRow (volOf : String → Volume) (jobOf : String → Nat × Nat)
    (volumeid jobid started : String) : StatusRow :=
  { vmname := (volOf volumeid).vmname, vmstate := (volOf volumeid).vmstate,
    name := (volOf volumeid).name, size := (volOf volumeid).size,
    volumeState := (volOf volumeid).state, storage := (volOf volumeid).storage,
    volumeid := volumeid, started := started,
    jobStatus := (jobOf jobid).1, jobResultcode := (jobOf jobid).2 }

/-- Lines 310-313: the first three fields of a receipt line are
indexed unconditionally and the third is right-stripped. -/
def parseReceiptFields (fs : List String) :
    Except String (String × String × String) :=
  match getField fs 0 with
  | Except.error e => Except.error e
  | Except.ok v =>
    match getField fs 1 with
    | Except.error e => Except.error e
    | Except.ok j =>
      match getField fs 2 with
      | Except.error e => Except.error e
      | Except.ok s => Except.ok (v, j, s.trimRight)

/-- Parsing of one receipt line: split on semicolons, then index the
first three fields. -/
def parseReceiptLine (line : String) :
    Except String (String × String × String) :=
  parseReceiptFields (splitSemiStr line)

/-- One status row per receipt line, in file-then-line order. -/
def buildStatusRows (volOf : String → Volume) (jobOf : String → Nat × Nat) :
    List String → Except String (List StatusRow)
  | [] => Except.ok []
  | l :: ls =>
    match parseReceiptLine l with
    | Except.error e => Except.error e
    | Except.ok (v, j, s) =>
      match buildStatusRows volOf jobOf ls with
      | Except.error e => Except.error e
      | Except.ok rest => Except.ok (mkStatusRow volOf jobOf v j s :: rest)

/-- The monitor's sort comparison, line 346: by `job-status`, then by
`started`, ascending (Python tuple comparison). -/
def statusLE (a b : StatusRow) : Bool :=
  if a.jobStatus < b.jobStatus then true
  else if a.jobStatus = b.jobStatus then decide (a.started ≤ b.started)
  else false

/-- `migration_status` over the matching receipt files (each given as
its list of lines, in glob order): build one row per line across all
files, then sort by (job-status, started). -/
def migrationStatus (volOf : String → Volume) (jobOf : String → Nat × Nat)
    (files : List (List String)) : Except String (List StatusRow) :=
  match buildStatusRows volOf jobOf files.flatten with
  | Except.error e => Except.error e
  | Except.ok rows => Except.ok (rows.mergeSort statusLE)

/-! ### Concrete records used by witnesses and counterexamples -/

/-- A collected volume on storage pool "A". -/
def sampleCollected : CollectedVolume :=
  { id := "v1", domain := "d1", name := "vol1", state := "Ready",
    size := "42", vmname := "vm1", vmstate := "Running", project := "p1",
    storage := some "A" }

/-- A simple fully populated record. -/
def sampleVolume : Volume :=
  { id := "v1", domain := "d", project := "p", vmname := "vm",
    vmstate := "Running", name := "vol", state := "Ready",
    storage := "SR1", size := "42" }

/-- A second record, attached to a stopped VM. -/
def sampleVolume2 : Volume :=
  { id := "v2", domain := "d", project := "p", vmname := "vm2",
    vmstate := "Stopped", name := "vol2", state := "Ready",
    storage := "SR1", size := "43" }

/-- A row environment: fetched record stopped, operator confirms. -/
def sampleActStopped : RowAction :=
  { fetched := sampleVolume2, answerYes := true, jobid := "j1",
    fileTime := "20260101-000010", lineTime := "20260101-000010" }

/-- A second confirmed row environment, ten seconds later. -/
def sampleActStopped2 : RowAction :=
  { fetched := sampleVolume2, answerYes := true, jobid := "j2",
    fileTime := "20260101-000020", lineTime := "20260101-000020" }

/-- A row environment whose fetched VM state is "Paused". -/
def sampleActPaused : RowAction :=
  { fetched := { sampleVolume with vmstate := "Paused" },
    answerYes := true, jobid := "j3",
    fileTime := "20260101-000030", lineTime := "20260101-000030" }

/-- Pool listing containing the destination storage "X". -/
def samplePools : List (String × String) := [("X", "xid")]

/-- An invocation combining build and play, with a valid
`--dest-storage`. -/
def sampleArgsBuildPlay : Args :=
  { prepareMigratelist := true, doMigrate := true, interactive := false,
    nonInteractive := false, monitorMigrations := false, prepSr := none,
    prepProj := none, outputList := none, inputList := some "f",
    destStorage := some "X" }

/-- An invocation playing without an input list or a destination. -/
def sampleArgsPlayBare : Args :=
  { prepareMigratelist := false, doMigrate := true, interactive := false,
    nonInteractive := false, monitorMigrations := false, prepSr := none,
    prepProj := none, outputList := none, inputList := none,
    destStorage := none }

/-- Volume lookup oracle for monitor examples. -/
def sampleVolOf : String → Volume := fun _ => sampleVolume

/-- Job lookup oracle for monitor examples. -/
def sampleJobOf : String → Nat × Nat := fun _ => (1, 0)

theorem lexLE_total (a b : List String) : lexLE a b || lexLE b a := by
  induction a generalizing b with
  | nil => simp [lexLE]
  | cons x xs ih =>
    cases b with
    | nil => simp [lexLE]
    | cons y ys =>
      rcases lt_trichotomy x y with hxy | hxy | hxy
      · simp [lexLE, hxy]
      · subst hxy
        simpa [lexLE] using ih ys
      · simp [lexLE, hxy, not_lt_of_gt hxy, ne_of_gt hxy]

theorem lexLE_trans (a b c : List String)
    (hab : lexLE a b) (hbc : lexLE b c) : lexLE a c := by
  induction a generalizing b c with
  | nil => simp [lexLE]
  | cons x xs ih =>
    cases b with
    | nil => simp [lexLE] at hab
    | cons y ys =>
      cases c with
      | nil => simp [lexLE] at hbc
      | cons z zs =>
        by_cases hxy : x < y
        · by_cases hyz : y < z
          · simp [lexLE, lt_trans hxy hyz]
          · by_cases hyz2 : y = z
            · subst hyz2; simp [lexLE, hxy]
            · simp [lexLE, hyz, hyz2] at hbc
        · by_cases hxy2 : x = y
          · subst hxy2
            simp only [lexLE, if_neg hxy, if_pos rfl] at hab
            by_cases hyz : x < z
            · simp [lexLE, hyz]
            · by_cases hyz2 : x = z
              · subst hyz2
                simp only [lexLE, if_neg hyz, if_pos rfl] at hbc ⊢
                exact ih ys zs hab hbc
              · simp [lexLE, hyz, hyz2] at hbc
          · simp [lexLE, hxy, hxy2] at hab

theorem keyLE_total (a b : CollectedVolume) : keyLE a b || keyLE b a :=
  lexLE_total _ _

theorem keyLE_trans (a b c : CollectedVolume)
    (hab : keyLE a b) (hbc : keyLE b c) : keyLE a c :=
  lexLE_trans _ _ _ hab hbc

/-- C5: for every raw volume record, normalization (the composition of
the defaults applied in `collect_volumes` and in `printout_volumes`)
sets a missing `vmname`, `vmstate`, `project` or `storage` to the
sentinel `"n.a."`, keeps those fields unchanged when present, and
keeps every other field exactly as in the raw record. -/
theorem normalize_defaults_missing_fields (r : RawVolume) :
    (normalizeVolume r).vmname = r.vmname.getD "n.a." ∧
    (normalizeVolume r).vmstate = r.vmstate.getD "n.a." ∧
    (normalizeVolume r).project = r.project.getD "n.a." ∧
    (normalizeVolume r).storage = r.storage.getD "n.a." ∧
    (normalizeVolume r).id = r.id ∧
    (normalizeVolume r).domain = r.domain ∧
    (normalizeVolume r).name = r.name ∧
    (normalizeVolume r).state = r.state ∧
    (normalizeVolume r).size = r.size := by
  cases hv : r.vmname <;> cases hs : r.vmstate <;>
    simp [normalizeVolume, collectVolume, printoutRecord, hv, hs]

/-- C6: the builder's output rows are the header followed by the
serializations of `emittedVolumes`, and that sequence is sorted
ascending, case-insensitively, by (domain, project, vmname, name),
for every input collection in every order. -/
theorem builder_output_sorted (prepSr : Option String)
    (vols : List CollectedVolume) :
    printoutVolumes prepSr vols =
      headerLine :: (emittedVolumes prepSr vols).map serializeVolume ∧
    (emittedVolumes prepSr vols).Pairwise
      (fun a b => lexLE (volKey a) (volKey b) = true) := by
  refine ⟨rfl, ?_⟩
  have hs : (vols.mergeSort keyLE).Pairwise (fun a b => keyLE a b = true) := by
    simpa using List.sorted_mergeSort keyLE_trans keyLE_total vols
  have hm : ((vols.mergeSort keyLE).map printoutRecord).Pairwise
      (fun a b => lexLE (volKey a) (volKey b) = true) := by
    refine List.Pairwise.map printoutRecord ?_ hs
    intro a b hab
    exact hab
  exact hm.filter (keepRow prepSr)

theorem splitOnSemi_sep (xs ys : List Char) (h : ';' ∉ xs) :
    splitOnSemi (xs ++ ';' :: ys) = xs :: splitOnSemi ys := by
  induction xs with
  | nil => simp [splitOnSemi]
  | cons c t ih =>
    have hc : c ≠ ';' := fun hc => h (hc ▸ List.mem_cons_self c t)
    have ht : ';' ∉ t := fun hm => h (List.mem_cons_of_mem _ hm)
    simp [splitOnSemi, hc, ih ht]

theorem splitOnSemi_nosep (xs : List Char) (h : ';' ∉ xs) :
    splitOnSemi xs = [xs] := by
  induction xs with
  | nil => rfl
  | cons c t ih =>
    have hc : c ≠ ';' := fun hc => h (hc ▸ List.mem_cons_self c t)
    have ht : ';' ∉ t := fun hm => h (List.mem_cons_of_mem _ hm)
    simp [splitOnSemi, hc, ih ht]

theorem stringMk_data (s : String) : String.mk s.data = s := rfl

theorem append_nl_data (s : String) :
    String.mk (s.data ++ ['\n']) = s ++ "\n" := rfl

/-- Splitting a serialized worklist row yields the nine fields, the
last one carrying the terminating newline, provided no field contains
a semicolon. -/
theorem splitSemiStr_serialize (v : Volume)
    (h : ∀ f ∈ fieldsOf v, ';' ∉ f.data) :
    splitSemiStr (serializeVolume v) =
      [v.id, v.domain, v.project, v.vmname, v.vmstate, v.name, v.state,
       v.storage, v.size ++ "\n"] := by
  have h0 : ';' ∉ v.id.data := h v.id (by simp [fieldsOf])
  have h1 : ';' ∉ v.domain.data := h v.domain (by simp [fieldsOf])
  have h2 : ';' ∉ v.project.data := h v.project (by simp [fieldsOf])
  have h3 : ';' ∉ v.vmname.data := h v.vmname (by simp [fieldsOf])
  have h4 : ';' ∉ v.vmstate.data := h v.vmstate (by simp [fieldsOf])
  have h5 : ';' ∉ v.name.data := h v.name (by simp [fieldsOf])
  have h6 : ';' ∉ v.state.data := h v.state (by simp [fieldsOf])
  have h7 : ';' ∉ v.storage.data := h v.storage (by simp [fieldsOf])
  have h8 : ';' ∉ v.size.data := h v.size (by simp [fieldsOf])
  have h8n : ';' ∉ v.size.data ++ ['\n'] := by
    simp only [List.mem_append, List.mem_singleton]
    rintro (hm | hm)
    · exact h8 hm
    · exact absurd hm.symm (by decide)
  have hdata : (serializeVolume v).data =
      v.id.data ++ ';' :: (v.domain.data ++ ';' :: (v.project.data ++
        ';' :: (v.vmname.data ++ ';' :: (v.vmstate.data ++ ';' ::
        (v.name.data ++ ';' :: (v.state.data ++ ';' :: (v.storage.data ++
        ';' :: (v.size.data ++ ['\n'])))))))) := by
    have hsemi : (";" : String).data = [';'] := rfl
    have hnl : ("\n" : String).data = ['\n'] := rfl
    simp [serializeVolume, String.data_append, hsemi, hnl]
  rw [splitSemiStr, hdata, splitOnSemi_sep _ _ h0, splitOnSemi_sep _ _ h1,
    splitOnSemi_sep _ _ h2, splitOnSemi_sep _ _ h3, splitOnSemi_sep _ _ h4,
    splitOnSemi_sep _ _ h5, splitOnSemi_sep _ _ h6, splitOnSemi_sep _ _ h7,
    splitOnSemi_nosep _ h8n]
  simp [stringMk_data, append_nl_data]

theorem parseFields_nine (a b c d e f g h i : String) (t : List String) :
    parseFields (a :: b :: c :: d :: e :: f :: g :: h :: i :: t) =
      if a == "id" then Except.ok none
      else Except.ok (some { id := a, domain := b, project := c,
                             vmname := d, vmstate := e, name := f,
                             state := g, storage := h, size := i }) := rfl

theorem parseFields_short : ∀ (fs : List String), fs.length < 9 →
    parseFields fs = Except.error "list index out of range"
  | [], _ => rfl
  | [_], _ => rfl
  | [_, _], _ => rfl
  | [_, _, _], _ => rfl
  | [_, _, _, _], _ => rfl
  | [_, _, _, _, _], _ => rfl
  | [_, _, _, _, _, _], _ => rfl
  | [_, _, _, _, _, _, _], _ => rfl
  | [_, _, _, _, _, _, _, _], _ => rfl
  | _ :: _ :: _ :: _ :: _ :: _ :: _ :: _ :: _ :: _, hlen => by
      simp [List.length_cons] at hlen
      omega

theorem parseFields_long (fs : List String) (hlen : 9 ≤ fs.length) :
    parseFields fs =
      if (fs.getD 0 "") == "id" then Except.ok none
      else Except.ok (some (volumeFromFields fs)) := by
  match fs with
  | a :: b :: c :: d :: e :: f :: g :: h :: i :: t =>
    simpa [volumeFromFields] using parseFields_nine a b c d e f g h i t
  | [] => simp at hlen
  | [_] => simp at hlen
  | [_, _] => simp at hlen
  | [_, _, _] => simp at hlen
  | [_, _, _, _] => simp at hlen
  | [_, _, _, _, _] => simp at hlen
  | [_, _, _, _, _, _] => simp at hlen
  | [_, _, _, _, _, _, _] => simp at hlen
  | [_, _, _, _, _, _, _, _] => simp at hlen

/-- C10: a worklist line with fewer than nine semicolon-separated
fields (empty and blank lines included) makes the player raise an
out-of-range indexing error, because all nine fields are indexed
unconditionally before the first field is compared with "id"; such a
line is never silently skipped. -/
theorem short_line_raises_before_header_check (line : String)
    (hlen : (splitSemiStr line).length < 9) :
    parseWorklistLine line = Except.error "list index out of range" ∧
    parseWorklistLine line ≠ Except.ok none := by
  have h : parseWorklistLine line = Except.error "list index out of range" :=
    parseFields_short (splitSemiStr line) hlen
  exact ⟨h, by simp [h]⟩

theorem short_line_raises_before_header_check_witness :
    (splitSemiStr "id;x").length < 9 ∧
    (parseWorklistLine "id;x" = Except.error "list index out of range" ∧
     parseWorklistLine "id;x" ≠ Except.ok none) :=
  ⟨by decide, short_line_raises_before_header_check "id;x" (by decide)⟩

/-- C8 counterexample: the line "id;x" followed by a newline has the
literal "id" as its first semicolon-separated field, yet the player
does not skip it as a header: indexing the missing fields raises
before the header check is reached. -/
theorem header_first_field_short_line_cex :
    (splitSemiStr "id;x\n").getD 0 "" = "id" ∧
    parseWorklistLine "id;x\n" = Except.error "list index out of range" ∧
    parseWorklistLine "id;x\n" ≠ Except.ok none := by
  have h : parseWorklistLine "id;x\n" =
      Except.error "list index out of range" := rfl
  exact ⟨by decide, h, by simp [h]⟩

/-- C8 (amended): among worklist lines with at least nine
semicolon-separated fields, every line whose first field literally
equals "id" is treated as a header and skipped regardless of its
position in the file, and every other such line is processed as a
data row; lines with fewer than nine fields instead raise an indexing
error. -/
theorem header_lines_skipped_any_position (lines : List String)
    (h : ∀ l ∈ lines, 9 ≤ (splitSemiStr l).length) :
    parsedRows lines = Except.ok
      ((lines.filter (fun l => ((splitSemiStr l).getD 0 "") != "id")).map
        (fun l => volumeFromFields (splitSemiStr l))) := by
  induction lines with
  | nil => rfl
  | cons l ls ih =>
    have hl : 9 ≤ (splitSemiStr l).length := h l (List.mem_cons_self l ls)
    have hls : ∀ x ∈ ls, 9 ≤ (splitSemiStr x).length :=
      fun x hx => h x (List.mem_cons_of_mem _ hx)
    have hp := parseFields_long (splitSemiStr l) hl
    by_cases hid : (splitSemiStr l).getD 0 "" = "id"
    · have hb : ((splitSemiStr l).getD 0 "" == "id") = true :=
        beq_iff_eq.mpr hid
      have hskip : parseFields (splitSemiStr l) = Except.ok none := by
        rw [hp, if_pos hb]
      have hbne : ((splitSemiStr l).getD 0 "" != "id") = false := by
        show (!((splitSemiStr l).getD 0 "" == "id")) = false
        rw [hb]
        rfl
      simp only [parsedRows, parseWorklistLine, hskip, List.filter_cons,
        hbne, Bool.false_eq_true, if_false, ih hls]
    · have hb : ((splitSemiStr l).getD 0 "" == "id") = false :=
        beq_eq_false_iff_ne.mpr hid
      have hkeep : parseFields (splitSemiStr l) =
          Except.ok (some (volumeFromFields (splitSemiStr l))) := by
        rw [hp, if_neg (by rw [hb]; exact Bool.false_ne_true)]
      have hbne : ((splitSemiStr l).getD 0 "" != "id") = true := by
        show (!((splitSemiStr l).getD 0 "" == "id")) = true
        rw [hb]
        rfl
      simp only [parsedRows, parseWorklistLine, hkeep, List.filter_cons,
        hbne, if_true, ih hls, List.map_cons]

theorem header_lines_skipped_any_position_witness :
    (∀ l ∈ ["a;b;c;d;e;f;g;h;i", headerLine, "z;b;c;d;e;f;g;h;i"],
      9 ≤ (splitSemiStr l).length) ∧
    parsedRows ["a;b;c;d;e;f;g;h;i", headerLine, "z;b;c;d;e;f;g;h;i"] =
      Except.ok
        (((["a;b;c;d;e;f;g;h;i", headerLine, "z;b;c;d;e;f;g;h;i"].filter
            (fun l => ((splitSemiStr l).getD 0 "") != "id")).map
          (fun l => volumeFromFields (splitSemiStr l)))) :=
  ⟨by decide, header_lines_skipped_any_position _ (by decide)⟩

theorem parsedRows_serialized (vols : List Volume)
    (hf : ∀ v ∈ vols, ∀ f ∈ fieldsOf v, ';' ∉ f.data)
    (hid : ∀ v ∈ vols, v.id ≠ "id") :
    parsedRows (vols.map serializeVolume) =
      Except.ok (vols.map (fun v => { v with size := v.size ++ "\n" })) := by
  induction vols with
  | nil => rfl
  | cons v vs ih =>
    have hsplit := splitSemiStr_serialize v (hf v (List.mem_cons_self v vs))
    have hvid : v.id ≠ "id" := hid v (List.mem_cons_self v vs)
    have hp : parseWorklistLine (serializeVolume v) =
        Except.ok (some { v with size := v.size ++ "\n" }) := by
      rw [parseWorklistLine, hsplit, parseFields_nine]
      simp [hvid]
    have htail := ih (fun x hx => hf x (List.mem_cons_of_mem _ hx))
      (fun x hx => hid x (List.mem_cons_of_mem _ hx))
    simp [parsedRows, hp, htail]

/-- C3 counterexample: serializing the single record `sampleVolume`
and parsing the file back reproduces every field except the last one:
the parsed size is "42" followed by a newline, not "42", so the
round trip is not the identity. -/
theorem worklist_roundtrip_cex :
    parsedRows (serializeWorklist [sampleVolume]) =
      Except.ok [{ sampleVolume with size := "42\n" }] ∧
    ({ sampleVolume with size := "42\n" } : Volume) ≠ sampleVolume := by
  exact ⟨rfl, by decide⟩

/-- C3 (amended): for records whose fields contain no semicolon and no
newline and whose id is not the literal "id", serializing and then
parsing back with the player's row parser reproduces the ordered
sequence field-for-field in the first eight fields, while the last
field (size) comes back with the line's terminating newline appended
to it. -/
theorem worklist_roundtrip_appends_newline (vols : List Volume)
    (hf : ∀ v ∈ vols, ∀ f ∈ fieldsOf v, ';' ∉ f.data ∧ '\n' ∉ f.data)
    (hid : ∀ v ∈ vols, v.id ≠ "id") :
    parsedRows (serializeWorklist vols) =
      Except.ok (vols.map (fun v => { v with size := v.size ++ "\n" })) := by
  have hhead : parseWorklistLine headerLine = Except.ok none := rfl
  have htail := parsedRows_serialized vols
    (fun v hv f hf2 => ((hf v hv) f hf2).1) hid
  simp [serializeWorklist, parsedRows, hhead, htail]

theorem worklist_roundtrip_appends_newline_witness :
    (∀ v ∈ [sampleVolume], ∀ f ∈ fieldsOf v, ';' ∉ f.data ∧ '\n' ∉ f.data) ∧
    (∀ v ∈ [sampleVolume], v.id ≠ "id") ∧
    parsedRows (serializeWorklist [sampleVolume]) =
      Except.ok ([sampleVolume].map (fun v => { v with size := v.size ++ "\n" })) :=
  ⟨by decide, by decide,
    worklist_roundtrip_appends_newline [sampleVolume] (by decide) (by decide)⟩

/-- C1: for every worklist data row, migration mode is determined from
the freshly re-fetched vmstate: "Running" selects live, "Stopped"
selects offline, and any other value raises "Unexpected VMState!",
aborting the run with no migration submitted and no receipt line
written for that row or any later row. -/
theorem unexpected_vmstate_aborts (pfx dst : String) (row : Volume)
    (act : RowAction) (rest : List (Volume × RowAction))
    (h1 : act.fetched.vmstate ≠ "Running")
    (h2 : act.fetched.vmstate ≠ "Stopped") :
    processRow pfx dst row act = Except.error "Unexpected VMState!" ∧
    doMigrateRun pfx dst ((row, act) :: rest) =
      ([], some "Unexpected VMState!") := by
  have hm : migrateModeOf act.fetched.vmstate =
      Except.error "Unexpected VMState!" := by
    simp [migrateModeOf, h1, h2]
  have hp : processRow pfx dst row act = Except.error "Unexpected VMState!" := by
    simp [processRow, hm]
  exact ⟨hp, by simp [doMigrateRun, hp]⟩

theorem unexpected_vmstate_aborts_witness :
    sampleActPaused.fetched.vmstate ≠ "Running" ∧
    sampleActPaused.fetched.vmstate ≠ "Stopped" ∧
    (processRow "/tmp/joblist-" "dstid" sampleVolume sampleActPaused =
      Except.error "Unexpected VMState!" ∧
    doMigrateRun "/tmp/joblist-" "dstid" [(sampleVolume, sampleActPaused)] =
      ([], some "Unexpected VMState!")) :=
  ⟨by decide, by decide,
    unexpected_vmstate_aborts "/tmp/joblist-" "dstid" sampleVolume
      sampleActPaused [] (by decide) (by decide)⟩

/-- C2 counterexample: a run with two confirmed migrations submitted
at different seconds writes two receipt files with different names,
each named with the timestamp of its own submission — not a single
per-run file created once and appended to. -/
theorem receipt_single_file_cex :
    writeTargets (doMigrateRun "/tmp/joblist-" "dstid"
        [(sampleVolume, sampleActStopped),
         (sampleVolume2, sampleActStopped2)]).1 =
      ["/tmp/joblist-20260101-000010", "/tmp/joblist-20260101-000020"] ∧
    ("/tmp/joblist-20260101-000010" : String) ≠
      "/tmp/joblist-20260101-000020" :=
  ⟨rfl, by decide⟩

/-- C2 (amended): within one player run, each confirmed migration
writes its own receipt file, named with the fixed prefix plus the UTC
timestamp taken at that submission (not at run start), opened in
write (truncate) mode and containing the single line
volume_id;job_id;submitted_timestamp; a later confirmation whose
timestamp string equals an earlier one's therefore overwrites that
earlier receipt file. -/
theorem receipt_file_per_confirmation (pfx dst : String)
    (rows : List (Volume × RowAction))
    (h : ∀ p ∈ rows, p.2.fetched.vmstate = "Running" ∨
      p.2.fetched.vmstate = "Stopped") :
    doMigrateRun pfx dst rows = (rows.flatMap (rowEvents pfx dst), none) := by
  induction rows with
  | nil => rfl
  | cons p ps ih =>
    obtain ⟨row, act⟩ := p
    have hrest := ih (fun q hq => h q (List.mem_cons_of_mem _ hq))
    rcases h (row, act) (List.mem_cons_self _ _) with hv | hv <;>
      replace hv : act.fetched.vmstate = _ := hv <;>
        cases hyes : act.answerYes <;>
          simp [doMigrateRun, processRow, migrateModeOf, rowEvents, hv, hyes,
            hrest, List.flatMap_cons]

theorem receipt_file_per_confirmation_witness :
    (∀ p ∈ [(sampleVolume, sampleActStopped)],
      p.2.fetched.vmstate = "Running" ∨ p.2.fetched.vmstate = "Stopped") ∧
    doMigrateRun "/tmp/joblist-" "dstid" [(sampleVolume, sampleActStopped)] =
      ([(sampleVolume, sampleActStopped)].flatMap
        (rowEvents "/tmp/joblist-" "dstid"), none) :=
  ⟨by decide,
    receipt_file_per_confirmation "/tmp/joblist-" "dstid"
      [(sampleVolume, sampleActStopped)] (by decide)⟩

theorem keepRow_eq (X : String) (hX : X ≠ "") (v : Volume) :
    keepRow (some X) v = (v.storage == X) := by
  have hx : (X != "") = true := by
    show (!(X == "")) = true
    rw [beq_eq_false_iff_ne.mpr hX]
    rfl
  by_cases hs : X = v.storage
  · subst hs
    simp [keepRow, hx]
  · have h1 : (X != v.storage) = true := by
      show (!(X == v.storage)) = true
      rw [beq_eq_false_iff_ne.mpr hs]
      rfl
    have h2 : (v.storage == X) = false :=
      beq_eq_false_iff_ne.mpr (Ne.symm hs)
    simp [keepRow, hx, h1, h2]

/-- C7 counterexample: with the storage filter given as the empty
string (a falsy value in the source's truthiness test), a volume on
storage "A" is still emitted, so not every emitted row has storage
equal to the filter value. -/
theorem storage_filter_empty_cex :
    emittedVolumes (some "") [sampleCollected] =
      [printoutRecord sampleCollected] ∧
    (printoutRecord sampleCollected).storage = "A" ∧
    ("A" : String) ≠ "" := by
  refine ⟨?_, rfl, by decide⟩
  show ((List.mergeSort [sampleCollected] keyLE).map printoutRecord).filter
      (keepRow (some "")) = _
  rw [List.mergeSort_singleton]
  rfl

/-- C7 (amended): for every non-empty storage filter X, every row the
builder emits has storage exactly X, and the emitted rows are the
filter of the serialization of the sorted intermediate collection —
the collection itself is not modified, filtering happens at
serialization time only. -/
theorem storage_filter_exact (X : String) (vols : List CollectedVolume)
    (hX : X ≠ "") :
    (emittedVolumes (some X) vols).all (fun v => v.storage == X) = true ∧
    emittedVolumes (some X) vols =
      ((vols.mergeSort keyLE).map printoutRecord).filter
        (fun v => v.storage == X) := by
  have hk : ∀ v, keepRow (some X) v = (v.storage == X) := keepRow_eq X hX
  constructor
  · rw [List.all_eq_true]
    intro v hv
    have := List.of_mem_filter hv
    rwa [hk v] at this
  · exact List.filter_congr (fun v _ => hk v)

theorem storage_filter_exact_witness :
    ("SR1" : String) ≠ "" ∧
    ((emittedVolumes (some "SR1") [sampleCollected]).all
      (fun v => v.storage == "SR1") = true ∧
    emittedVolumes (some "SR1") [sampleCollected] =
      (([sampleCollected].mergeSort keyLE).map printoutRecord).filter
        (fun v => v.storage == "SR1")) :=
  ⟨by decide, storage_filter_exact "SR1" [sampleCollected] (by decide)⟩

/-- C4 counterexample: when build and play are combined and a valid
destination storage is named, the toplevel performs the remote
storage-pool listing (line 374) before raising the flag-combination
rejection (line 385): a remote call precedes the rejection. -/
theorem remote_call_precedes_rejection_cex :
    badCombo sampleArgsBuildPlay = true ∧
    toplevelTrace samplePools sampleArgsBuildPlay =
      [TopEvent.remoteListStoragePools,
       TopEvent.reject
         "--prepare_migrate and --do-migrate cannot be used together."] ∧
    (toplevelTrace samplePools sampleArgsBuildPlay).takeWhile
      (fun e => !(isReject e)) = [TopEvent.remoteListStoragePools] :=
  ⟨rfl, rfl, rfl⟩

/-- C4 (amended): every invocation with a mutually exclusive or
incomplete flag combination is rejected, and the only events that can
precede the rejection are the remote storage-pool listing calls made
to validate the dest-storage and prep-sr names; when neither of those
flags is given (truthy), no remote call precedes the rejection. -/
theorem bad_combo_rejected (pools : List (String × String)) (args : Args)
    (hbad : badCombo args = true) :
    (toplevelTrace pools args).any isReject = true ∧
    ((toplevelTrace pools args).takeWhile (fun e => !(isReject e))).all
      (fun e => e == TopEvent.remoteListStoragePools) = true ∧
    (truthy args.destStorage = false → truthy args.prepSr = false →
      (toplevelTrace pools args).takeWhile (fun e => !(isReject e)) = []) := by
  unfold badCombo at hbad
  unfold toplevelTrace stagePrepSr stageChecks
  split_ifs with h1 h2 h3 h4 h5 h6 h7 h8 h9 h10 h11 h12 h13 h14 <;>
    simp_all [isReject]

theorem bad_combo_rejected_witness :
    badCombo sampleArgsPlayBare = true ∧
    ((toplevelTrace samplePools sampleArgsPlayBare).any isReject = true ∧
    ((toplevelTrace samplePools sampleArgsPlayBare).takeWhile
      (fun e => !(isReject e))).all
      (fun e => e == TopEvent.remoteListStoragePools) = true ∧
    (truthy sampleArgsPlayBare.destStorage = false →
      truthy sampleArgsPlayBare.prepSr = false →
      (toplevelTrace samplePools sampleArgsPlayBare).takeWhile
        (fun e => !(isReject e)) = [])) :=
  ⟨by decide, bad_combo_rejected samplePools sampleArgsPlayBare (by decide)⟩

theorem statusLE_iff (a b : StatusRow) : statusLE a b = true ↔
    (a.jobStatus < b.jobStatus ∨
      (a.jobStatus = b.jobStatus ∧ a.started ≤ b.started)) := by
  unfold statusLE
  split_ifs with h1 h2
  · simp [h1]
  · simp [h1, h2]
  · simp [h1, h2]

theorem statusLE_total (a b : StatusRow) : statusLE a b || statusLE b a := by
  rw [Bool.or_eq_true, statusLE_iff, statusLE_iff]
  rcases Nat.lt_trichotomy a.jobStatus b.jobStatus with h | h | h
  · exact Or.inl (Or.inl h)
  · rcases le_total a.started b.started with hs | hs
    · exact Or.inl (Or.inr ⟨h, hs⟩)
    · exact Or.inr (Or.inr ⟨h.symm, hs⟩)
  · exact Or.inr (Or.inl h)

theorem statusLE_trans (a b c : StatusRow)
    (hab : statusLE a b) (hbc : statusLE b c) : statusLE a c := by
  rw [statusLE_iff] at *
  rcases hab with h | ⟨he, hs⟩ <;> rcases hbc with h2 | ⟨he2, hs2⟩
  · exact Or.inl (lt_trans h h2)
  · exact Or.inl (he2 ▸ h)
  · exact Or.inl (he ▸ h2)
  · exact Or.inr ⟨he.trans he2, le_trans hs hs2⟩

theorem parseReceiptFields_long : ∀ (fs : List String), 3 ≤ fs.length →
    parseReceiptFields fs =
      Except.ok (fs.getD 0 "", fs.getD 1 "", (fs.getD 2 "").trimRight)
  | [], h => absurd h (by simp)
  | [_], h => absurd h (by simp)
  | [_, _], h => absurd h (by simp)
  | _ :: _ :: _ :: _, _ => rfl

theorem buildStatusRows_ok (volOf : String → Volume)
    (jobOf : String → Nat × Nat) (lines : List String)
    (h : ∀ l ∈ lines, 3 ≤ (splitSemiStr l).length) :
    buildStatusRows volOf jobOf lines = Except.ok (lines.map (fun l =>
      mkStatusRow volOf jobOf ((splitSemiStr l).getD 0 "")
        ((splitSemiStr l).getD 1 "")
        (((splitSemiStr l).getD 2 "").trimRight))) := by
  induction lines with
  | nil => rfl
  | cons l ls ih =>
    have h1 := parseReceiptFields_long (splitSemiStr l)
      (h l (List.mem_cons_self _ _))
    have h2 := ih (fun x hx => h x (List.mem_cons_of_mem _ hx))
    simp [buildStatusRows, parseReceiptLine, h1, h2]

/-- C9: for every set of matching receipt files whose lines all have at
least three semicolon-separated fields, the monitor produces exactly
one status row per data line across all files, and the rows are
sorted ascending by job-status then by the receipt's started
timestamp. -/
theorem monitor_rows_count_sorted (volOf : String → Volume)
    (jobOf : String → Nat × Nat) (files : List (List String))
    (h : ∀ f ∈ files, ∀ l ∈ f, 3 ≤ (splitSemiStr l).length) :
    ∃ rows, migrationStatus volOf jobOf files = Except.ok rows ∧
      rows.length = (files.map List.length).sum ∧
      rows.Pairwise (fun a b => statusLE a b = true) := by
  have hall : ∀ l ∈ files.flatten, 3 ≤ (splitSemiStr l).length := by
    intro l hl
    rw [List.mem_flatten] at hl
    obtain ⟨f, hf, hlf⟩ := hl
    exact h f hf l hlf
  have hb := buildStatusRows_ok volOf jobOf files.flatten hall
  refine ⟨(files.flatten.map (fun l =>
      mkStatusRow volOf jobOf ((splitSemiStr l).getD 0 "")
        ((splitSemiStr l).getD 1 "")
        (((splitSemiStr l).getD 2 "").trimRight))).mergeSort statusLE,
    ?_, ?_, ?_⟩
  · rw [migrationStatus, hb]
  · simp [Function.comp_def]
  · exact List.sorted_mergeSort statusLE_trans statusLE_total _

theorem monitor_rows_count_sorted_witness :
    (∀ f ∈ [["v1;j1;1"], ["v2;j2;2"]], ∀ l ∈ f,
      3 ≤ (splitSemiStr l).length) ∧
    (∃ rows, migrationStatus sampleVolOf sampleJobOf
        [["v1;j1;1"], ["v2;j2;2"]] = Except.ok rows ∧
      rows.length = ([["v1;j1;1"], ["v2;j2;2"]].map List.length).sum ∧
      rows.Pairwise (fun a b => statusLE a b = true)) :=
  ⟨by decide,
    monitor_rows_count_sorted sampleVolOf sampleJobOf
      [["v1;j1;1"], ["v2;j2;2"]] (by decide)⟩

end AcsMigrate
